import Mathlib

/-!
Shallow embedding of the client-side utilities of the `manuelito_site`
repository, together with proofs about them.

The embedded code is:
  * `src/utils/image-preloader.ts` — the `ImagePreloader` class and (in the
    same source bundle) the `VideoBackgroundManager` class;
  * `src/utils/mobile-navigation.ts` — the `MobileNavigation` class;
  * `src/utils/progressive-loader.ts` — the `ProgressiveLoader` class and
    `initProgressiveLoader`.

The browser environment is modelled explicitly: DOM element styles and
classes become record fields holding the strings the code writes,
`sessionStorage` becomes `Option String` valued fields, JavaScript numbers
become an inductive `JsNum` (NaN, signed infinity, or an exact rational),
scheduled timers and attached listeners become explicit fields recording
that the call installed them.  All definitions are executable.
-/

/-! ## JavaScript numbers and `parseFloat` -/

/-- A JavaScript number as observed by the embedded code: `NaN`,
a signed infinity, or a finite value (idealised as an exact rational;
`-0` is identified with `0`). -/
inductive JsNum where
  | nan : JsNum
  | inf (positive : Bool) : JsNum
  | fin (val : Rat) : JsNum
deriving DecidableEq, Repr

/-- The JavaScript `isNaN` test on a `JsNum`. -/
def JsNum.isNaN : JsNum → Bool
  | nan => true
  | _ => false

/-- Subtraction on `Rat`, written with `mkRat` so that it evaluates by
kernel reduction (`Rat.sub` is irreducible). -/
def ratSub (a b : Rat) : Rat :=
  mkRat (a.num * (b.den : Int) - b.num * (a.den : Int)) (a.den * b.den)

/-- JavaScript subtraction on `JsNum`. -/
def JsNum.sub : JsNum → JsNum → JsNum
  | nan, _ => nan
  | _, nan => nan
  | inf p, inf q => if p = q then nan else inf p
  | inf p, fin _ => inf p
  | fin _, inf q => inf (!q)
  | fin a, fin b => fin (ratSub a b)

/-- Absolute value on `Rat`, written so that it evaluates by kernel
reduction. -/
def ratAbs (a : Rat) : Rat :=
  if a < 0 then Rat.neg a else a

/-- JavaScript `Math.abs` on a `JsNum`. -/
def JsNum.abs : JsNum → JsNum
  | nan => nan
  | inf _ => inf true
  | fin a => fin (ratAbs a)

/-- The JavaScript `>` comparison on `JsNum` (false whenever NaN is involved). -/
def JsNum.gt : JsNum → JsNum → Bool
  | nan, _ => false
  | _, nan => false
  | inf p, inf q => p && !q
  | inf p, fin _ => p
  | fin _, inf q => !q
  | fin a, fin b => decide (b < a)

/-- JavaScript `StrWhiteSpace` characters that `parseFloat` skips
(space, tab, LF, CR, vertical tab, form feed, NBSP). -/
def jsIsWhitespace (c : Char) : Bool :=
  c = ' ' || c = '\t' || c = '\n' || c = '\r' || c.toNat = 11 || c.toNat = 12 || c.toNat = 160

/-- Value of a list of decimal digit characters. -/
def digitsToNat (ds : List Char) : Nat :=
  ds.foldl (fun n c => 10 * n + (c.toNat - 48)) 0

/-- The rational `m * 10 ^ e` for an integer mantissa `m` and integer
exponent `e`, built with `mkRat` so that it evaluates by kernel
reduction. -/
def decimalValue (m : Int) (e : Int) : Rat :=
  if 0 ≤ e then mkRat (m * (10 : Int) ^ e.toNat) 1 else mkRat m ((10 : Nat) ^ (-e).toNat)

/-- A signed run of decimal digits (the exponent body of a JS decimal
literal); an empty digit run contributes exponent `0`, as `parseFloat`
then ignores the `e`/`E` suffix. -/
def parseSignedDigits (cs : List Char) : Int :=
  let (sgn, rest) :=
    match cs with
    | '-' :: r => ((-1 : Int), r)
    | '+' :: r => ((1 : Int), r)
    | _ => ((1 : Int), cs)
  let ds := rest.takeWhile Char.isDigit
  if ds.isEmpty then 0 else sgn * (digitsToNat ds : Int)

/-- The optional exponent part `e`/`E` of a JS decimal literal. -/
def parseExponent (cs : List Char) : Int :=
  match cs with
  | 'e' :: rest => parseSignedDigits rest
  | 'E' :: rest => parseSignedDigits rest
  | _ => 0

/-- The JavaScript `parseFloat` function: skip leading whitespace, take the
longest prefix that is a `StrDecimalLiteral` (optional sign, `Infinity` or
digits with optional decimal point and exponent) and return its value, or
NaN when no such prefix exists. -/
def jsParseFloat (s : String) : JsNum :=
  let cs := s.toList.dropWhile jsIsWhitespace
  let (sgn, cs1) :=
    match cs with
    | '-' :: r => ((-1 : Int), r)
    | '+' :: r => ((1 : Int), r)
    | _ => ((1 : Int), cs)
  if cs1.take 8 = "Infinity".toList then
    JsNum.inf (decide (sgn = 1))
  else
    let intDs := cs1.takeWhile Char.isDigit
    let rest1 := cs1.dropWhile Char.isDigit
    let (fracDs, rest2) :=
      match rest1 with
      | '.' :: r => (r.takeWhile Char.isDigit, r.dropWhile Char.isDigit)
      | _ => (([] : List Char), rest1)
    if intDs.isEmpty && fracDs.isEmpty then
      JsNum.nan
    else
      let e := parseExponent rest2
      JsNum.fin (decimalValue (sgn * (digitsToNat (intDs ++ fracDs) : Int)) (e - fracDs.length))

/-! ## `VideoBackgroundManager` (src/utils/image-preloader.ts, video section)

The manager owns a `<video>` element and a placeholder `<div>`.  The state
below records the inline style strings the code writes on the placeholder,
the playback position and paused flag of the video, the two
`sessionStorage` keys, and — explicitly — which listeners and timers a
call installed. -/

/-- The partial configuration passed to the `VideoBackgroundManager`
constructor. -/
structure VideoBackgroundConfig where
  videoId : Option String := none
  placeholderId : Option String := none
  fadeDuration : Option Nat := none
  fallbackTimeout : Option Nat := none
  loadDelay : Option Nat := none

/-- The configuration after the constructor has merged in the defaults
(`{videoId: 'bgvid', placeholderId: 'video-placeholder', fadeDuration: 500,
fallbackTimeout: 3000, loadDelay: 100, ...config}`). -/
structure VideoConfigFull where
  videoId : String
  placeholderId : String
  fadeDuration : Nat
  fallbackTimeout : Nat
  loadDelay : Nat
deriving DecidableEq, Repr

/-- The constructor's config merge: spread of the defaults then the
caller-supplied fields. -/
def mkVideoConfig (c : VideoBackgroundConfig) : VideoConfigFull where
  videoId := c.videoId.getD "bgvid"
  placeholderId := c.placeholderId.getD "video-placeholder"
  fadeDuration := c.fadeDuration.getD 500
  fallbackTimeout := c.fallbackTimeout.getD 3000
  loadDelay := c.loadDelay.getD 100

/-- The state the `VideoBackgroundManager` code observes and mutates:
placeholder inline style, video playback state, the session-storage keys
`videoReady` and `videoTime`, and the listeners/timers installed by
`setupVideoLoading`.  `storageWritable` is false when `sessionStorage`
writes throw (the code catches such exceptions). -/
structure VideoBackgroundState where
  placeholderOpacity : String
  placeholderDisplay : String
  currentTime : JsNum
  paused : Bool
  storageVideoReady : Option String
  storageVideoTime : Option String
  storageWritable : Bool
  readyListeners : Bool
  fallbackTimerMs : Option Nat
  playbackEnsured : Bool
deriving DecidableEq, Repr

/-- Model of `wasVideoReady`: reads the session key `videoReady` and compares it to
the string `'true'`. -/
def wasVideoReady (s : VideoBackgroundState) : Bool :=
  s.storageVideoReady = some "true"

/-- Model of `hidePlaceholderPermanently`: sets the placeholder's inline opacity to
`'0'` and display to `'none'`, then stores `videoReady = 'true'`
(swallowing a storage exception). -/
def hidePlaceholderPermanently (s : VideoBackgroundState) : VideoBackgroundState :=
  let s := { s with placeholderOpacity := "0", placeholderDisplay := "none" }
  if s.storageWritable then { s with storageVideoReady := some "true" } else s

/-- Model of `ensureVideoPlayback` effect on the observed state: the method is a
no-op when the video is already playing; otherwise it calls `play()`.
Promise resolution/rejection is modelled separately (`ensureVideoPlaybackE`
below); here we only record that the call happened. -/
def markPlaybackEnsured (s : VideoBackgroundState) : VideoBackgroundState :=
  { s with playbackEnsured := true }

/-- Model of `setupVideoLoading`: if `sessionStorage.videoReady === 'true'` the
placeholder is hidden permanently and the method returns; otherwise the
placeholder opacity is set to `'1'`, the three ready-event listeners
(`canplaythrough`, `loadeddata`, `canplay`) are attached, a fallback
timeout of `config.fallbackTimeout` ms is scheduled, and
`ensureVideoPlayback` is called. -/
def setupVideoLoading (cfg : VideoConfigFull) (s : VideoBackgroundState) :
    VideoBackgroundState :=
  if wasVideoReady s then
    hidePlaceholderPermanently s
  else
    let s := { s with placeholderOpacity := "1" }
    let s := { s with readyListeners := true }
    let s := { s with fallbackTimerMs := some cfg.fallbackTimeout }
    markPlaybackEnsured s

/-- One of the video ready events (`canplaythrough`, `loadeddata` or
`canplay`) fires: each installed handler calls
`hidePlaceholderPermanently`. -/
def fireReadyEvent (s : VideoBackgroundState) : VideoBackgroundState :=
  if s.readyListeners then hidePlaceholderPermanently s else s

/-- The fallback `setTimeout` elapses: its callback calls
`hidePlaceholderPermanently`. -/
def fireFallbackTimeout (s : VideoBackgroundState) : VideoBackgroundState :=
  if s.fallbackTimerMs.isSome then hidePlaceholderPermanently s else s

/-- Model of `restoreVideoState`: when `videoReady` is `'true'` the placeholder is
re-hidden; then, when a non-empty `videoTime` string is stored, it is read
back with `parseFloat` and assigned to `video.currentTime` only when the
parsed value is not NaN and differs from the current position by more than
`0.1`; finally `ensureVideoPlayback` is called when the video is paused. -/
def restoreVideoState (s : VideoBackgroundState) : VideoBackgroundState :=
  let s1 :=
    if wasVideoReady s then
      { s with placeholderDisplay := "none", placeholderOpacity := "0" }
    else s
  let s2 :=
    match s1.storageVideoTime with
    | some stored =>
      if stored ≠ "" then
        let time := jsParseFloat stored
        if !time.isNaN && JsNum.gt (JsNum.abs (JsNum.sub s1.currentTime time)) (JsNum.fin (mkRat 1 10)) then
          { s1 with currentTime := time }
        else s1
      else s1
    | none => s1
  if s2.paused then markPlaybackEnsured s2 else s2

/-! ## `MobileNavigation` (src/utils/mobile-navigation.ts)

The controller owns a hamburger button and a slide-down menu.  The state
records the class list / attribute / inline style values the code writes,
the busy-flag and debounce timestamp, and the scheduled timer that resets
the busy-flag.  `pendingAnimReset = some d` means a `setTimeout` that will
set `isAnimating` back to `false` after `d` ms is currently scheduled
(this models the browser timer itself, which keeps running even when the
`cleanupTimeout` handle is later overwritten). -/

/-- The resolved `MobileNavigation` configuration.  The constructor applies
`config.x || default` (JS `||`), so an explicit `0` also falls back to the
default. -/
structure NavConfig where
  debounceDelay : Int
  animationDuration : Int
  opacityDuration : Int
deriving DecidableEq, Repr

/-- JS `config.field || default` for an optional numeric field: `none`
(undefined) and `some 0` (falsy) both yield the default. -/
def jsOrDefault (v : Option Int) (d : Int) : Int :=
  match v with
  | some x => if x = 0 then d else x
  | none => d

/-- The constructor's defaulting of the three numeric options
(`debounceDelay || 300`, `animationDuration || 500`,
`opacityDuration || 300`). -/
def mkNavConfig (debounceDelay animationDuration opacityDuration : Option Int) : NavConfig where
  debounceDelay := jsOrDefault debounceDelay 300
  animationDuration := jsOrDefault animationDuration 500
  opacityDuration := jsOrDefault opacityDuration 300

/-- Observable state of the `MobileNavigation` controller: presence of the
two required DOM elements, the hamburger's `is-active` class and
`aria-expanded` attribute, the menu's `menu-open`/`navigating` classes and
inline height, `document.body.style.overflow`, the busy-flag, the debounce
timestamp, the scheduled busy-flag reset timer, a pending page-title
update, and `window.innerHeight`. -/
structure NavState where
  hasHamburger : Bool
  hasMenu : Bool
  isActive : Bool
  ariaExpanded : String
  menuHeight : String
  menuOpen : Bool
  navigating : Bool
  bodyOverflow : String
  isAnimating : Bool
  lastClickTime : Int
  pendingAnimReset : Option Int
  pendingTitleUpdate : Bool
  windowInnerHeight : Int
deriving DecidableEq, Repr

/-- Model of `toggleMenu`: blocked when an element is missing or the busy-flag is
set; otherwise sets the busy-flag, toggles `is-active` and
`aria-expanded`, opens (height `innerHeight - 80` px, class `menu-open`,
body overflow `hidden`) or closes (height `'0'`, overflow `''`), and
schedules the busy-flag reset after
`max(animationDuration, opacityDuration)` ms. -/
def toggleMenu (cfg : NavConfig) (s : NavState) : NavState :=
  if !s.hasHamburger || !s.hasMenu || s.isAnimating then s
  else
    let s0 := { s with isAnimating := true }
    let isActive := s0.isActive
    let s1 := { s0 with
      isActive := !isActive,
      ariaExpanded := if !isActive then "true" else "false" }
    let s2 :=
      if !isActive then
        { s1 with
          menuHeight := toString (s1.windowInnerHeight - 80) ++ "px",
          menuOpen := true,
          bodyOverflow := "hidden" }
      else
        { s1 with menuOpen := false, menuHeight := "0", bodyOverflow := "" }
    { s2 with pendingAnimReset := some (max cfg.animationDuration cfg.opacityDuration) }

/-- Model of `handleHamburgerClick` at wall-clock time `now` (ms): rejects the click
when fewer than `debounceDelay` ms separate it from the last click that
passed the debounce gate; then records the click time; then rejects it
when the busy-flag is set; otherwise toggles. -/
def handleHamburgerClick (cfg : NavConfig) (now : Int) (s : NavState) : NavState :=
  if now - s.lastClickTime < cfg.debounceDelay then s
  else
    let s := { s with lastClickTime := now }
    if s.isAnimating then s else toggleMenu cfg s

/-- Model of `handleOutsideClick` for a document click whose target lies in the menu
subtree (`targetInMenu`) and/or the hamburger subtree
(`targetInHamburger`): toggles only when the menu is open and the target
is in neither. -/
def handleOutsideClick (cfg : NavConfig) (targetInMenu targetInHamburger : Bool)
    (s : NavState) : NavState :=
  if s.hasHamburger && s.hasMenu && s.isActive && !targetInMenu && !targetInHamburger then
    toggleMenu cfg s
  else s

/-- Model of `handleEscapeKey` for a keydown with key `key`: toggles only for
`'Escape'` while the menu is open. -/
def handleEscapeKey (cfg : NavConfig) (key : String) (s : NavState) : NavState :=
  if key = "Escape" && s.hasHamburger && s.isActive then toggleMenu cfg s else s

/-- Model of `startNavigationClose`: unconditionally (no busy-flag check) sets the
busy-flag, adds the `navigating` class, removes `is-active`, sets
`aria-expanded` to `'false'`, sets the menu height to `'0'`, removes
`menu-open`, restores body overflow, and schedules the busy-flag reset
after 200 ms. -/
def startNavigationClose (s : NavState) : NavState :=
  if !s.hasMenu || !s.hasHamburger then s
  else
    { s with
      isAnimating := true,
      navigating := true,
      isActive := false,
      ariaExpanded := "false",
      menuHeight := "0",
      menuOpen := false,
      bodyOverflow := "",
      pendingAnimReset := some 200 }

/-- Model of `handleNavLinkClick`: when the menu is open, closes it via
`startNavigationClose` and schedules the page-title update 200 ms later
(the title timer overwrites the `cleanupTimeout` handle but does not
cancel the already scheduled busy-flag reset timer). -/
def handleNavLinkClick (s : NavState) : NavState :=
  if s.hasHamburger && s.isActive then
    let s := startNavigationClose s
    { s with pendingTitleUpdate := true }
  else s

/-- Model of `forceOpenMenu`: clears the busy-flag, computes the same
`innerHeight - 80` height, opens the menu, and cancels the pending
`cleanupTimeout` timer. -/
def forceOpenMenu (s : NavState) : NavState :=
  if s.hasMenu && s.hasHamburger then
    { s with
      isAnimating := false,
      menuHeight := toString (s.windowInnerHeight - 80) ++ "px",
      menuOpen := true,
      isActive := true,
      ariaExpanded := "true",
      bodyOverflow := "hidden",
      pendingAnimReset := none }
  else s

/-! ## Error handling of the public initializers (C7)

Each initializer is embedded as an `Except String`-valued function over an
explicit environment; `Except.error` models an uncaught JavaScript
exception escaping to the caller.  The environments carry the failure
knobs the code guards against: a `querySelector` call throwing on an
invalid selector, missing DOM elements, a missing `IntersectionObserver`,
a throwing observer constructor, and a rejected `play()` promise. -/

/-- The `try { body } catch (e) { handler }` statement. -/
def jsTryCatch {α : Type} (body : Except String α) (handler : String → α) : α :=
  match body with
  | .ok a => a
  | .error e => handler e

/-- Browser environment for `MobileNavigation.init`. -/
structure NavDomEnv where
  selectorValid : Bool
  hamburgerPresent : Bool
  menuPresent : Bool
  pageTitlePresent : Bool
  navLinkCount : Nat
deriving DecidableEq, Repr

/-- Model of `document.querySelector`: throws a `SyntaxError` on an invalid
selector, otherwise returns the element or `null`. -/
def querySelectorE (env : NavDomEnv) (present : Bool) : Except String (Option Unit) :=
  if env.selectorValid then .ok (if present then some () else none) else .error "SyntaxError"

/-- Outcome of `MobileNavigation.init` visible to the environment. -/
structure NavInitResult where
  listenersInstalled : Bool
  warnedMissing : Bool
  errorLogged : Bool
deriving DecidableEq, Repr

/-- Body of `MobileNavigation.init` (inside its `try`): query the four
selectors, warn and return early when hamburger or menu is missing,
otherwise install the click/keydown listeners. -/
def navInitBody (env : NavDomEnv) : Except String NavInitResult := do
  let ham ← querySelectorE env env.hamburgerPresent
  let menu ← querySelectorE env env.menuPresent
  let _ ← querySelectorE env env.pageTitlePresent
  match ham, menu with
  | some _, some _ =>
    pure { listenersInstalled := true, warnedMissing := false, errorLogged := false }
  | _, _ =>
    pure { listenersInstalled := false, warnedMissing := true, errorLogged := false }

/-- Model of `MobileNavigation.init`: the whole body runs inside
`try { ... } catch (error) { console.error(...) }`, so an exception is
logged and swallowed. -/
def navInit (env : NavDomEnv) : Except String NavInitResult :=
  .ok (jsTryCatch (navInitBody env)
    (fun _ => { listenersInstalled := false, warnedMissing := false, errorLogged := true }))

/-- Browser environment for `ImagePreloader.initializeImagePreloader`. -/
structure PreloadEnv where
  hasIntersectionObserver : Bool
  observerSetupThrows : Bool
deriving DecidableEq, Repr

/-- The preloading strategy the initializer ends up with. -/
inductive PreloadMode where
  | observing : PreloadMode
  | legacyHover : PreloadMode
deriving DecidableEq, Repr

/-- Model of `initializeImagePreloader`: without `IntersectionObserver` support it
warns and falls back to hover preloading; otherwise it sets up the
observer inside a `try`, and on an exception logs it and falls back to
hover preloading. -/
def initializeImagePreloader (env : PreloadEnv) : Except String PreloadMode :=
  if !env.hasIntersectionObserver then
    .ok .legacyHover
  else
    .ok (jsTryCatch
      (if env.observerSetupThrows then (.error "observer setup failed") else .ok .observing)
      (fun _ => .legacyHover))

/-- Browser environment for `VideoBackgroundManager.ensureVideoPlayback`. -/
structure PlaybackEnv where
  videoPresent : Bool
  videoPaused : Bool
  autoplayAllowed : Bool
deriving DecidableEq, Repr

/-- Outcome of `ensureVideoPlayback` visible to the environment. -/
structure PlaybackResult where
  playing : Bool
  gestureRetryListeners : Bool
deriving DecidableEq, Repr

/-- Model of `ensureVideoPlayback`: no-op without a video or when already playing;
otherwise calls `play()`; a rejected autoplay promise is consumed by the
`.catch` handler, which installs one-time `click`/`touchstart`/`keydown`
listeners that retry playback on the next user gesture. -/
def ensureVideoPlaybackE (env : PlaybackEnv) : Except String PlaybackResult :=
  if !env.videoPresent then
    .ok { playing := false, gestureRetryListeners := false }
  else if !env.videoPaused then
    .ok { playing := true, gestureRetryListeners := false }
  else
    let playPromise : Except String Unit :=
      if env.autoplayAllowed then .ok () else .error "NotAllowedError"
    match playPromise with
    | .ok _ => .ok { playing := true, gestureRetryListeners := false }
    | .error _ => .ok { playing := false, gestureRetryListeners := true }

/-! ## `ProgressiveLoader` (src/utils/progressive-loader.ts)

A tier's `loadFunction: () => Promise<void>` is modelled by a boolean
`loadResolves` recording whether the promise resolves; `loadTier` awaits
it, and only on resolution marks the tier loaded and filters it out of the
queue. -/

/-- Tier priorities, in the order of `priorityOrder`. -/
inductive TierPriority where
  | critical : TierPriority
  | high : TierPriority
  | medium : TierPriority
  | low : TierPriority
deriving DecidableEq, Repr

/-- Model of `priorityOrder = { critical: 0, high: 1, medium: 2, low: 3 }`. -/
def priorityOrder : TierPriority → Nat
  | .critical => 0
  | .high => 1
  | .medium => 2
  | .low => 3

/-- A `LoadingTier` record. -/
structure LoadingTier where
  name : String
  priority : TierPriority
  loadResolves : Bool
  timeout : Nat
deriving DecidableEq, Repr

/-- Model of `ProgressiveLoader` instance state. -/
structure LoaderState where
  loadingQueue : List LoadingTier
  loadedTiers : List String
  isProcessing : Bool
deriving DecidableEq, Repr

/-- JS `Set.add` on the set of loaded tier names. -/
def setAdd (names : List String) (n : String) : List String :=
  if n ∈ names then names else names ++ [n]

/-- Model of `loadTier`: awaits the tier's `loadFunction`; on resolution adds the
name to `loadedTiers` and filters the tier out of the queue; on rejection
only warns. -/
def loadTier (s : LoaderState) (t : LoadingTier) : LoaderState :=
  if t.loadResolves then
    { s with
      loadedTiers := setAdd s.loadedTiers t.name,
      loadingQueue := s.loadingQueue.filter (fun u => u.name ≠ t.name) }
  else s

/-- What `processQueue` does with a tier after the critical phase:
high-priority tiers are loaded by a 100 ms `setTimeout`, medium-priority
tiers by `requestIdleCallback`, low-priority tiers by
`requestIdleCallback` behind a 2000 ms `setTimeout`. -/
inductive SchedAction where
  | awaitNow (t : LoadingTier) : SchedAction
  | afterTimeout (ms : Nat) (t : LoadingTier) : SchedAction
  | whenIdle (t : LoadingTier) : SchedAction
  | afterTimeoutIdle (ms : Nat) (t : LoadingTier) : SchedAction
deriving DecidableEq, Repr

/-- The tier an action is about. -/
def SchedAction.tier : SchedAction → LoadingTier
  | .awaitNow t => t
  | .afterTimeout _ t => t
  | .whenIdle t => t
  | .afterTimeoutIdle _ t => t

/-- The schedule `processQueue` picks for a non-critical tier. -/
def scheduleOf (t : LoadingTier) : SchedAction :=
  match t.priority with
  | .high => .afterTimeout 100 t
  | .medium => .whenIdle t
  | .low => .afterTimeoutIdle 2000 t
  | .critical => .awaitNow t

/-- The comparator `(a, b) => priorityOrder[a.priority] - priorityOrder[b.priority]`
as a boolean `le`. -/
def tierLe (a b : LoadingTier) : Bool :=
  priorityOrder a.priority ≤ priorityOrder b.priority

/-- Model of `processQueue`: returns early while already processing or on an empty
queue; otherwise sorts the queue by priority (JS `Array.sort` is stable),
awaits every critical tier sequentially in sorted order, then schedules
the remaining tiers (`afterTimeout 100` / `whenIdle` /
`afterTimeoutIdle 2000`), and finally clears `isProcessing`.  The returned
list records, in order, the critical awaits followed by the scheduling of
the non-critical tiers. -/
def processQueue (s : LoaderState) : LoaderState × List SchedAction :=
  if s.isProcessing || s.loadingQueue.isEmpty then (s, [])
  else
    let sorted := s.loadingQueue.mergeSort tierLe
    let criticals := sorted.filter (fun t => t.priority = .critical)
    let remaining := sorted.filter (fun t => t.priority ≠ .critical)
    let afterCrit := criticals.foldl loadTier { s with loadingQueue := sorted, isProcessing := true }
    ({ afterCrit with isProcessing := false },
      criticals.map .awaitNow ++ remaining.map scheduleOf)

/-- Model of `addTier`: a tier whose name is already loaded is dropped; otherwise it
is pushed onto the queue and `processQueue` runs. -/
def addTier (s : LoaderState) (t : LoadingTier) : LoaderState × List SchedAction :=
  if t.name ∈ s.loadedTiers then (s, [])
  else processQueue { s with loadingQueue := s.loadingQueue ++ [t] }

/-! ## `initProgressiveLoader` and the video-background tier (C9)

`initProgressiveLoader` registers a critical `video-background` tier whose
`loadFunction` calls `initVideoBackground()` and then, 1000 ms later,
checks `manager.isReady()` and writes the session key `videoReady`.  The
world below pairs the loader state with the state that belongs to the
video background manager. -/

/-- The video background manager's state as seen from outside, plus the
two session keys the spec assigns to it. -/
structure ManagerWorld where
  managerIsReady : Bool
  storageVideoReadyKey : Option String
  storageVideoTimeKey : Option String
  storageAvailable : Bool
deriving DecidableEq, Repr

/-- The 1000 ms `setTimeout` callback inside the `video-background` tier of
`initProgressiveLoader`: when `manager.isReady()` it stores
`videoReady = 'true'` (swallowing storage exceptions). -/
def videoBackgroundTierTimer (w : ManagerWorld) : ManagerWorld :=
  if w.managerIsReady then
    if w.storageAvailable then { w with storageVideoReadyKey := some "true" } else w
  else w

/-- Combined world: the progressive loader's own state next to the video
background manager's. -/
structure SiteWorld where
  loader : LoaderState
  manager : ManagerWorld
deriving DecidableEq, Repr

/-- Model of `processQueue` lifted to the combined world: the method body only
touches `this.loadingQueue`, `this.loadedTiers` and `this.isProcessing`. -/
def siteProcessQueue (w : SiteWorld) : SiteWorld × List SchedAction :=
  let (l, acts) := processQueue w.loader
  ({ w with loader := l }, acts)

/-! ## `ImagePreloader.preloadImage` cache (C10)

`preloadedImages: Map<string, PreloadedImage>` is keyed by `src`, and
`preloadImage(src)` touches only the entry for its own `src`, so the cache
is modelled per-`src`: the optional entry for one fixed URL together with
a count of the `new Image()` fetches started for that URL and the number
of extra load/error listener pairs attached to the in-flight image. -/

/-- The `PreloadedImage` record for one `src` (the `element` field is
represented by `extraListeners`, the listeners later calls attached
to it). -/
structure PreloadEntry where
  loaded : Bool
  loading : Bool
  extraListeners : Nat
deriving DecidableEq, Repr

/-- The per-`src` slice of the preloader: the cache entry and the number of
underlying `Image` fetches started so far. -/
structure PreloadCacheState where
  entry : Option PreloadEntry
  imagesCreated : Nat
deriving DecidableEq, Repr

/-- Model of `preloadImage(src)`: with a loaded cache entry it resolves from the
cache; with a loading entry it attaches load/error listeners to the
in-flight image; otherwise it creates a fresh `Image`, stores a
`{loaded: false, loading: true}` entry, and starts the fetch. -/
def preloadImage (c : PreloadCacheState) : PreloadCacheState :=
  match c.entry with
  | some e =>
    if e.loaded then c
    else if e.loading then
      { c with entry := some { e with extraListeners := e.extraListeners + 1 } }
    else
      { entry := some { loaded := false, loading := true, extraListeners := 0 },
        imagesCreated := c.imagesCreated + 1 }
  | none =>
    { entry := some { loaded := false, loading := true, extraListeners := 0 },
      imagesCreated := c.imagesCreated + 1 }

/-- The in-flight image's `onload` handler: marks the entry loaded. -/
def fireImageLoad (c : PreloadCacheState) : PreloadCacheState :=
  match c.entry with
  | some e =>
    if e.loading then { c with entry := some { e with loaded := true, loading := false } } else c
  | none => c

/-- The in-flight image's `onerror` handler: clears the loading flag and
deletes the cache entry. -/
def fireImageError (c : PreloadCacheState) : PreloadCacheState :=
  match c.entry with
  | some e => if e.loading then { c with entry := none } else c
  | none => c

/-- The part of the per-`src` state the idempotence claim compares:
the fetch count and the entry's lifecycle flags, ignoring how many
listeners wait on the in-flight image. -/
def preloadCore (c : PreloadCacheState) : Nat × Option (Bool × Bool) :=
  (c.imagesCreated, c.entry.map (fun e => (e.loaded, e.loading)))

/-- A sample pre-`setupVideoLoading` state with the `videoReady` flag
absent. -/
def vbsFresh : VideoBackgroundState where
  placeholderOpacity := ""
  placeholderDisplay := ""
  currentTime := JsNum.fin 0
  paused := true
  storageVideoReady := none
  storageVideoTime := none
  storageWritable := true
  readyListeners := false
  fallbackTimerMs := none
  playbackEnsured := false

/-- The same state after a previous same-tab navigation left
`videoReady = 'true'`. -/
def vbsReady : VideoBackgroundState :=
  { vbsFresh with storageVideoReady := some "true" }

/-- A closed mobile-navigation state (menu closed, idle controller). -/
def navClosed : NavState where
  hasHamburger := true
  hasMenu := true
  isActive := false
  ariaExpanded := "false"
  menuHeight := "0"
  menuOpen := false
  navigating := false
  bodyOverflow := ""
  isAnimating := false
  lastClickTime := 1000
  pendingAnimReset := none
  pendingTitleUpdate := false
  windowInnerHeight := 744

/-- An open mobile-navigation state with no animation in progress. -/
def navOpen : NavState :=
  { navClosed with
    isActive := true
    ariaExpanded := "true"
    menuHeight := "664px"
    menuOpen := true
    bodyOverflow := "hidden" }

/-- An open mobile-navigation state while the open animation is still
running (busy-flag set, reset timer pending). -/
def navOpenAnimating : NavState :=
  { navOpen with isAnimating := true, pendingAnimReset := some 500 }

/-- The DOM effects the spec calls "closing": `is-active` removed,
`aria-expanded` set to `'false'`, inline height `'0'`, body overflow
restored to `''`, `menu-open` removed. -/
def menuClosedAfter (s : NavState) : Prop :=
  s.isActive = false ∧ s.ariaExpanded = "false" ∧ s.menuHeight = "0" ∧
    s.bodyOverflow = "" ∧ s.menuOpen = false

/-- A DOM environment whose configured selector strings are invalid, so
`querySelector` throws. -/
def envBadSelector : NavDomEnv where
  selectorValid := false
  hamburgerPresent := true
  menuPresent := true
  pageTitlePresent := true
  navLinkCount := 5

/-- A DOM environment with the menu element missing. -/
def envNoMenu : NavDomEnv where
  selectorValid := true
  hamburgerPresent := true
  menuPresent := false
  pageTitlePresent := true
  navLinkCount := 5

/-- A browser without `IntersectionObserver`. -/
def envNoObserver : PreloadEnv where
  hasIntersectionObserver := false
  observerSetupThrows := false

/-- A paused video whose autoplay attempt is rejected. -/
def envAutoplayBlocked : PlaybackEnv where
  videoPresent := true
  videoPaused := true
  autoplayAllowed := false

/-- The critical `video-background` tier registered by
`initProgressiveLoader`. -/
def tierVideoBackground : LoadingTier where
  name := "video-background"
  priority := .critical
  loadResolves := true
  timeout := 1000

/-- The medium `image-preloader` tier registered by
`initProgressiveLoader`. -/
def tierImagePreloader : LoadingTier where
  name := "image-preloader"
  priority := .medium
  loadResolves := true
  timeout := 2000

/-- The low `mobile-navigation` placeholder tier registered by
`initProgressiveLoader`. -/
def tierMobileNavigation : LoadingTier where
  name := "mobile-navigation"
  priority := .low
  loadResolves := true
  timeout := 3000

/-- A loader with the three `initProgressiveLoader` tiers queued out of
priority order. -/
def loaderSample : LoaderState where
  loadingQueue := [tierMobileNavigation, tierVideoBackground, tierImagePreloader]
  loadedTiers := []
  isProcessing := false

/-- A manager world where `initVideoBackground` finished and
`manager.isReady()` is true, with no session keys set yet. -/
def mwReady : ManagerWorld where
  managerIsReady := true
  storageVideoReadyKey := none
  storageVideoTimeKey := none
  storageAvailable := true

/-- The same world with the manager not (yet) ready. -/
def mwNotReady : ManagerWorld :=
  { mwReady with managerIsReady := false }

/-! ## Theorems -/

example : jsParseFloat "12.5" = JsNum.fin (mkRat 25 2) := by decide
example : jsParseFloat "" = JsNum.nan := by decide
example : jsParseFloat "abc" = JsNum.nan := by decide
example : jsParseFloat "  -3e2" = JsNum.fin (-300) := by decide
example : jsParseFloat "Infinity" = JsNum.inf true := by decide
example : jsParseFloat ".5" = JsNum.fin (mkRat 1 2) := by decide
example : JsNum.gt (JsNum.abs (JsNum.sub (JsNum.fin 0) (jsParseFloat "1.35"))) (JsNum.fin (mkRat 1 10)) = true := by decide

/-- C1: when the session flag `videoReady` equals `'true'`,
`setupVideoLoading` hides the placeholder immediately (opacity `'0'`,
display `'none'`) and installs no ready-event listeners and no fallback
timer; when the flag is absent, the placeholder is shown (opacity `'1'`)
with the three ready-event listeners and a fallback timer of
`config.fallbackTimeout` ms (default 3000) installed, and firing a ready
event or the fallback timeout hides the placeholder permanently and stores
`videoReady = 'true'`. -/
theorem setupVideoLoading_placeholder_lifecycle (cfg : VideoConfigFull)
    (s : VideoBackgroundState) :
    (mkVideoConfig {}).fallbackTimeout = 3000 ∧
    (s.storageVideoReady = some "true" → s.readyListeners = false → s.fallbackTimerMs = none →
      (setupVideoLoading cfg s).placeholderOpacity = "0" ∧
      (setupVideoLoading cfg s).placeholderDisplay = "none" ∧
      (setupVideoLoading cfg s).readyListeners = false ∧
      (setupVideoLoading cfg s).fallbackTimerMs = none) ∧
    (s.storageVideoReady ≠ some "true" →
      (setupVideoLoading cfg s).placeholderOpacity = "1" ∧
      (setupVideoLoading cfg s).readyListeners = true ∧
      (setupVideoLoading cfg s).fallbackTimerMs = some cfg.fallbackTimeout ∧
      (s.storageWritable = true →
        (fireReadyEvent (setupVideoLoading cfg s)).placeholderOpacity = "0" ∧
        (fireReadyEvent (setupVideoLoading cfg s)).placeholderDisplay = "none" ∧
        (fireReadyEvent (setupVideoLoading cfg s)).storageVideoReady = some "true" ∧
        (fireFallbackTimeout (setupVideoLoading cfg s)).placeholderOpacity = "0" ∧
        (fireFallbackTimeout (setupVideoLoading cfg s)).placeholderDisplay = "none" ∧
        (fireFallbackTimeout (setupVideoLoading cfg s)).storageVideoReady = some "true")) := by
  refine ⟨rfl, ?_, ?_⟩
  · intro hReady hL hT
    have hw : wasVideoReady s = true := by simp [wasVideoReady, hReady]
    cases hsw : s.storageWritable <;>
      simp [setupVideoLoading, hw, hidePlaceholderPermanently, hsw, hL, hT]
  · intro hAbsent
    have hw : wasVideoReady s = false := by simp [wasVideoReady, hAbsent]
    refine ⟨?_, ?_, ?_, ?_⟩
    · simp [setupVideoLoading, hw, markPlaybackEnsured]
    · simp [setupVideoLoading, hw, markPlaybackEnsured]
    · simp [setupVideoLoading, hw, markPlaybackEnsured]
    · intro hsw
      simp [setupVideoLoading, hw, markPlaybackEnsured, fireReadyEvent,
        fireFallbackTimeout, hidePlaceholderPermanently, hsw]

/-- Witness for C1 at concrete states: the flag-present branch hides the
placeholder with nothing installed, and the flag-absent branch shows it,
installs the listeners and the default 3000 ms timer, and a ready event
hides it permanently. -/
theorem setupVideoLoading_placeholder_lifecycle_witness :
    (setupVideoLoading (mkVideoConfig {}) vbsReady).placeholderOpacity = "0" ∧
    (setupVideoLoading (mkVideoConfig {}) vbsReady).readyListeners = false ∧
    (setupVideoLoading (mkVideoConfig {}) vbsFresh).placeholderOpacity = "1" ∧
    (setupVideoLoading (mkVideoConfig {}) vbsFresh).fallbackTimerMs = some 3000 ∧
    (fireReadyEvent (setupVideoLoading (mkVideoConfig {}) vbsFresh)).storageVideoReady
      = some "true" := by
  have h1 := setupVideoLoading_placeholder_lifecycle (mkVideoConfig {}) vbsReady
  have h2 := setupVideoLoading_placeholder_lifecycle (mkVideoConfig {}) vbsFresh
  obtain ⟨-, hset, -⟩ := h1
  obtain ⟨-, -, habs⟩ := h2
  have hset' := hset rfl rfl rfl
  have habs' := habs (by decide)
  exact ⟨hset'.1, hset'.2.2.1, habs'.1, habs'.2.2.1, (habs'.2.2.2 rfl).2.2.1⟩

/-- C2: `restoreVideoState` changes `video.currentTime` only to the
`parseFloat` of the stored `videoTime` string, and only when that value is
not NaN and differs from the current position by more than `0.1`; a
missing, empty, or NaN-parsing stored string leaves the position
unchanged, and `currentTime` is never set to NaN. -/
theorem restoreVideoState_time_safety (s : VideoBackgroundState) :
    ((s.storageVideoTime = none ∨ s.storageVideoTime = some "" ∨
        (∃ str, s.storageVideoTime = some str ∧ (jsParseFloat str).isNaN = true)) →
      (restoreVideoState s).currentTime = s.currentTime) ∧
    ((restoreVideoState s).currentTime ≠ s.currentTime →
      ∃ str, s.storageVideoTime = some str ∧ str ≠ "" ∧
        (jsParseFloat str).isNaN = false ∧
        JsNum.gt (JsNum.abs (JsNum.sub s.currentTime (jsParseFloat str)))
          (JsNum.fin (mkRat 1 10)) = true ∧
        (restoreVideoState s).currentTime = jsParseFloat str) ∧
    (s.currentTime ≠ JsNum.nan → (restoreVideoState s).currentTime ≠ JsNum.nan) := by
  rcases hst : s.storageVideoTime with - | str
  · cases hw : wasVideoReady s <;>
      simp [restoreVideoState, hw, hst, markPlaybackEnsured] <;>
      cases hp : s.paused <;> simp [hp]
  · by_cases hempty : str = ""
    · subst hempty
      cases hw : wasVideoReady s <;>
        simp [restoreVideoState, hw, hst, markPlaybackEnsured] <;>
        cases hp : s.paused <;> simp [hp]
    · rcases hcond :
        (!(jsParseFloat str).isNaN &&
          JsNum.gt (JsNum.abs (JsNum.sub s.currentTime (jsParseFloat str)))
            (JsNum.fin (mkRat 1 10))) with - | -
      · cases hw : wasVideoReady s <;>
          simp [restoreVideoState, hw, hst, markPlaybackEnsured, hempty, hcond] <;>
          cases hp : s.paused <;> simp [hp]
      · have hnn : (jsParseFloat str).isNaN = false := by
          rcases Bool.and_eq_true .. |>.mp hcond with ⟨h1, -⟩
          simpa using h1
        have hgt :
            JsNum.gt (JsNum.abs (JsNum.sub s.currentTime (jsParseFloat str)))
              (JsNum.fin (mkRat 1 10)) = true := by
          rcases Bool.and_eq_true .. |>.mp hcond with ⟨-, h2⟩
          exact h2
        have hct : (restoreVideoState s).currentTime = jsParseFloat str := by
          cases hw : wasVideoReady s <;>
            simp [restoreVideoState, hw, hst, markPlaybackEnsured, hempty, hcond] <;>
            cases hp : s.paused <;> simp [hp]
        refine ⟨?_, ?_, ?_⟩
        · rintro (h | h | ⟨str2, hstr2, hnan2⟩)
          · simp at h
          · simp at h
            exact absurd h hempty
          · have hstr2' : str = str2 := by simpa using hstr2
            rw [← hstr2'] at hnan2
            rw [hnan2] at hnn
            cases hnn
        · intro _
          exact ⟨str, rfl, hempty, hnn, hgt, hct⟩
        · intro _
          rw [hct]
          intro hcon
          rw [hcon] at hnn
          simp [JsNum.isNaN] at hnn

/-- Witness for C2 at a concrete state: a non-numeric stored `videoTime`
leaves the playback position unchanged and non-NaN. -/
theorem restoreVideoState_time_safety_witness :
    (restoreVideoState
      { vbsFresh with storageVideoTime := some "abc", currentTime := JsNum.fin 5 }).currentTime
      = JsNum.fin 5 ∧
    (restoreVideoState
      { vbsFresh with storageVideoTime := some "abc", currentTime := JsNum.fin 5 }).currentTime
      ≠ JsNum.nan := by
  have h := restoreVideoState_time_safety
    { vbsFresh with storageVideoTime := some "abc", currentTime := JsNum.fin 5 }
  exact ⟨h.1 (Or.inr (Or.inr ⟨"abc", rfl, by decide⟩)), h.2.2 (by decide)⟩

/-- C3: a hamburger click that arrives within `debounceDelay` ms of the
last accepted click, or while the busy-flag is set, performs no toggle:
`is-active`, `aria-expanded`, the menu's inline height, `menu-open` and
the body overflow are unchanged. -/
theorem handleHamburgerClick_debounced (cfg : NavConfig) (now : Int) (s : NavState)
    (h : now - s.lastClickTime < cfg.debounceDelay ∨ s.isAnimating = true) :
    (handleHamburgerClick cfg now s).isActive = s.isActive ∧
    (handleHamburgerClick cfg now s).ariaExpanded = s.ariaExpanded ∧
    (handleHamburgerClick cfg now s).menuHeight = s.menuHeight ∧
    (handleHamburgerClick cfg now s).menuOpen = s.menuOpen ∧
    (handleHamburgerClick cfg now s).bodyOverflow = s.bodyOverflow := by
  rcases h with h | h
  · simp [handleHamburgerClick, h]
  · by_cases hd : now - s.lastClickTime < cfg.debounceDelay
    · simp [handleHamburgerClick, hd]
    · simp [handleHamburgerClick, hd, h]

/-- Witness for C3: with the default 300 ms debounce, a click 100 ms after
the previous one leaves the open/close state untouched. -/
theorem handleHamburgerClick_debounced_witness :
    (handleHamburgerClick (mkNavConfig none none none) 1100 navClosed).isActive = false ∧
    (handleHamburgerClick (mkNavConfig none none none) 1100 navClosed).menuHeight = "0" := by
  have h := handleHamburgerClick_debounced (mkNavConfig none none none) 1100 navClosed
    (Or.inl (by decide))
  exact ⟨h.1.trans rfl, h.2.2.1.trans rfl⟩

/-- Counterexample to C4 as stated: while the open animation is still
running (busy-flag set), an outside click and an Escape keydown on the
open menu are ignored — `toggleMenu` returns early — so neither closes the
menu. -/
theorem menu_close_blocked_while_animating :
    navOpenAnimating.isActive = true ∧
    handleOutsideClick (mkNavConfig none none none) false false navOpenAnimating
      = navOpenAnimating ∧
    (handleOutsideClick (mkNavConfig none none none) false false navOpenAnimating).menuHeight
      = "664px" ∧
    handleEscapeKey (mkNavConfig none none none) "Escape" navOpenAnimating
      = navOpenAnimating := by
  decide

/-- C4 (amended): whenever the menu is open and no open/close animation is
in progress, an outside click or an Escape keydown closes it; a
navigation-link activation closes it even during an animation.  Closing
removes `is-active`, sets `aria-expanded` to `'false'`, sets the inline
height to `'0'` and restores body overflow. -/
theorem menu_close_paths (cfg : NavConfig) (s : NavState)
    (hh : s.hasHamburger = true) (hm : s.hasMenu = true) (hact : s.isActive = true) :
    (s.isAnimating = false → ∀ tm th : Bool, tm = false → th = false →
      menuClosedAfter (handleOutsideClick cfg tm th s)) ∧
    (s.isAnimating = false → menuClosedAfter (handleEscapeKey cfg "Escape" s)) ∧
    menuClosedAfter (handleNavLinkClick s) := by
  refine ⟨?_, ?_, ?_⟩
  · rintro hna tm th rfl rfl
    simp [handleOutsideClick, hh, hm, hact, menuClosedAfter, toggleMenu, hna]
  · intro hna
    simp [handleEscapeKey, hh, hact, menuClosedAfter, toggleMenu, hm, hna]
  · simp [handleNavLinkClick, hh, hact, menuClosedAfter, startNavigationClose, hm]

/-- Witness for C4 (amended) at the concrete open state: all three close
paths end with the menu closed. -/
theorem menu_close_paths_witness :
    menuClosedAfter (handleOutsideClick (mkNavConfig none none none) false false navOpen) ∧
    menuClosedAfter (handleEscapeKey (mkNavConfig none none none) "Escape" navOpen) ∧
    menuClosedAfter (handleNavLinkClick navOpen) := by
  have h := menu_close_paths (mkNavConfig none none none) navOpen rfl rfl rfl
  exact ⟨h.1 rfl false false rfl rfl, h.2.1 rfl, h.2.2⟩

/-- C5: opening the menu via `toggleMenu` sets the inline height to
exactly `window.innerHeight - 80` pixels in the form `'<n>px'`, adds
`menu-open`, and sets body overflow to `'hidden'`; `forceOpenMenu`
computes the same height. -/
theorem toggleMenu_open_height (cfg : NavConfig) (s : NavState)
    (hh : s.hasHamburger = true) (hm : s.hasMenu = true)
    (hna : s.isAnimating = false) (hact : s.isActive = false) :
    (toggleMenu cfg s).menuHeight = toString (s.windowInnerHeight - 80) ++ "px" ∧
    (toggleMenu cfg s).menuOpen = true ∧
    (toggleMenu cfg s).bodyOverflow = "hidden" ∧
    (toggleMenu cfg s).isActive = true ∧
    (toggleMenu cfg s).ariaExpanded = "true" ∧
    (forceOpenMenu s).menuHeight = toString (s.windowInnerHeight - 80) ++ "px" := by
  refine ⟨?_, ?_, ?_, ?_, ?_, ?_⟩ <;>
    simp [toggleMenu, forceOpenMenu, hh, hm, hna, hact]

/-- Witness for C5: with a 744 px viewport both open paths set the height
to `'664px'`. -/
theorem toggleMenu_open_height_witness :
    (toggleMenu (mkNavConfig none none none) navClosed).menuHeight = "664px" ∧
    (forceOpenMenu navClosed).menuHeight = "664px" := by
  have h := toggleMenu_open_height (mkNavConfig none none none) navClosed rfl rfl rfl rfl
  exact ⟨h.1.trans (by decide), h.2.2.2.2.2.trans (by decide)⟩

/-- C6: any call that sets the busy-flag also leaves a scheduled reset:
assuming every busy state has a pending reset timer before the call, it
still does afterwards, a proceeding `toggleMenu` schedules the reset after
`max(animationDuration, opacityDuration)` ms, and `startNavigationClose`
(also via `handleNavLinkClick`, whose title timer does not cancel it)
schedules it after 200 ms. -/
theorem busy_flag_always_reset (cfg : NavConfig) (s : NavState)
    (hInv : s.isAnimating = true → s.pendingAnimReset.isSome = true) :
    ((toggleMenu cfg s).isAnimating = true →
      (toggleMenu cfg s).pendingAnimReset.isSome = true) ∧
    ((startNavigationClose s).isAnimating = true →
      (startNavigationClose s).pendingAnimReset.isSome = true) ∧
    ((handleNavLinkClick s).isAnimating = true →
      (handleNavLinkClick s).pendingAnimReset.isSome = true) ∧
    (s.hasHamburger = true → s.hasMenu = true → s.isAnimating = false →
      (toggleMenu cfg s).pendingAnimReset
        = some (max cfg.animationDuration cfg.opacityDuration)) ∧
    (s.hasHamburger = true → s.hasMenu = true →
      (startNavigationClose s).pendingAnimReset = some 200) := by
  refine ⟨?_, ?_, ?_, ?_, ?_⟩
  · intro h
    by_cases hb : !s.hasHamburger || !s.hasMenu || s.isAnimating
    · rw [toggleMenu] at h ⊢
      simp only [hb, if_true]
      simp only [hb, if_true] at h
      exact hInv h
    · rw [toggleMenu]
      simp [hb]
  · intro h
    by_cases hb : !s.hasMenu || !s.hasHamburger
    · rw [startNavigationClose] at h ⊢
      simp only [hb, if_true]
      simp only [hb, if_true] at h
      exact hInv h
    · rw [startNavigationClose]
      simp [hb]
  · intro h
    by_cases hc : s.hasHamburger && s.isActive
    · rw [handleNavLinkClick] at h ⊢
      simp only [hc, if_true] at h ⊢
      by_cases hb : !s.hasMenu || !s.hasHamburger
      · rw [startNavigationClose] at h ⊢
        simp only [hb, if_true] at h ⊢
        exact hInv h
      · rw [startNavigationClose]
        simp [hb]
    · rw [handleNavLinkClick] at h ⊢
      simp only [hc, if_false] at h ⊢
      exact hInv h
  · intro hh hm hna
    simp [toggleMenu, hh, hm, hna]
  · intro hh hm
    simp [startNavigationClose, hh, hm]

/-- Witness for C6 at concrete states: opening from the idle closed state
schedules the 500 ms reset, and the navigation close schedules the 200 ms
reset. -/
theorem busy_flag_always_reset_witness :
    (toggleMenu (mkNavConfig none none none) navClosed).pendingAnimReset = some 500 ∧
    (startNavigationClose navOpen).pendingAnimReset = some 200 := by
  have h := busy_flag_always_reset (mkNavConfig none none none) navClosed
    (fun hfalse => by cases hfalse)
  have h2 := busy_flag_always_reset (mkNavConfig none none none) navOpen
    (fun hfalse => by cases hfalse)
  exact ⟨(h.2.2.2.1 rfl rfl rfl).trans (by decide), h2.2.2.2.2 rfl rfl⟩

/-- C7: for every environment the three initializers return normally
(`Except.ok`, never an escaping exception): missing required DOM elements
only produce a warning with no listeners installed, a throwing selector
lookup is caught and logged, absence of `IntersectionObserver` (or a
throwing observer setup) falls back to hover preloading, and a rejected
autoplay promise installs the one-time gesture retry listeners. -/
theorem initializers_never_throw (e1 : NavDomEnv) (e2 : PreloadEnv) (e3 : PlaybackEnv) :
    (navInit e1).isOk = true ∧
    (e1.selectorValid = true → (e1.hamburgerPresent = false ∨ e1.menuPresent = false) →
      navInit e1
        = .ok { listenersInstalled := false, warnedMissing := true, errorLogged := false }) ∧
    (e1.selectorValid = false →
      navInit e1
        = .ok { listenersInstalled := false, warnedMissing := false, errorLogged := true }) ∧
    (initializeImagePreloader e2).isOk = true ∧
    (e2.hasIntersectionObserver = false → initializeImagePreloader e2 = .ok .legacyHover) ∧
    (e2.observerSetupThrows = true → initializeImagePreloader e2 = .ok .legacyHover) ∧
    (ensureVideoPlaybackE e3).isOk = true ∧
    (e3.videoPresent = true → e3.videoPaused = true → e3.autoplayAllowed = false →
      ensureVideoPlaybackE e3 = .ok { playing := false, gestureRetryListeners := true }) := by
  obtain ⟨sv, hp, mp, pt, nl⟩ := e1
  obtain ⟨io, ot⟩ := e2
  obtain ⟨vp, vpa, aa⟩ := e3
  cases sv <;> cases hp <;> cases mp <;> cases pt <;>
    cases io <;> cases ot <;> cases vp <;> cases vpa <;> cases aa <;>
    simp [navInit, navInitBody, querySelectorE, jsTryCatch, initializeImagePreloader,
      ensureVideoPlaybackE, Except.isOk, Except.toBool, bind, Except.bind, pure, Except.pure]

/-- Witness for C7 at concrete failing environments: invalid selector,
missing menu element, missing `IntersectionObserver`, and blocked
autoplay, each degraded without an exception. -/
theorem initializers_never_throw_witness :
    (navInit envBadSelector).isOk = true ∧
    navInit envNoMenu
      = .ok { listenersInstalled := false, warnedMissing := true, errorLogged := false } ∧
    initializeImagePreloader envNoObserver = .ok .legacyHover ∧
    ensureVideoPlaybackE envAutoplayBlocked
      = .ok { playing := false, gestureRetryListeners := true } := by
  have ha := initializers_never_throw envBadSelector envNoObserver envAutoplayBlocked
  have hb := initializers_never_throw envNoMenu envNoObserver envAutoplayBlocked
  exact ⟨ha.1, hb.2.1 rfl (Or.inr rfl), ha.2.2.2.2.1 rfl,
    ha.2.2.2.2.2.2.2 rfl rfl rfl⟩

/-- The tier comparator is transitive. -/
theorem tierLe_trans (a b c : LoadingTier) (h1 : tierLe a b = true) (h2 : tierLe b c = true) :
    tierLe a c = true := by
  simp only [tierLe, decide_eq_true_eq] at h1 h2 ⊢
  exact le_trans h1 h2

/-- The tier comparator is total. -/
theorem tierLe_total (a b : LoadingTier) : (tierLe a b || tierLe b a) = true := by
  simp only [tierLe, Bool.or_eq_true, decide_eq_true_eq]
  exact Nat.le_total _ _

/-- Function `scheduleOf` schedules the tier it is given. -/
theorem scheduleOf_tier (t : LoadingTier) : (scheduleOf t).tier = t := by
  cases h : t.priority <;> simp [scheduleOf, h, SchedAction.tier]

/-- C8: `processQueue` emits the critical awaits first and every action in
nondecreasing priority order (critical before high before medium before
low); critical tiers are awaited, high tiers get the 100 ms timeout,
medium tiers the idle callback, low tiers the idle callback behind the
2000 ms timeout; every queued tier is handled exactly once; a resolving
`loadTier` records the tier as loaded and removes it from the queue, a
rejecting one changes nothing; and `addTier` drops a tier whose name is
already loaded. -/
theorem processQueue_priority_scheduling (s : LoaderState) (t u : LoadingTier)
    (hs : s.isProcessing = false) :
    (processQueue s).2.Pairwise
      (fun a b => priorityOrder a.tier.priority ≤ priorityOrder b.tier.priority) ∧
    (∀ a ∈ (processQueue s).2,
      (a.tier.priority = .critical → a = .awaitNow a.tier) ∧
      (a.tier.priority = .high → a = .afterTimeout 100 a.tier) ∧
      (a.tier.priority = .medium → a = .whenIdle a.tier) ∧
      (a.tier.priority = .low → a = .afterTimeoutIdle 2000 a.tier)) ∧
    ((processQueue s).2.map SchedAction.tier).Perm s.loadingQueue ∧
    (t.loadResolves = true →
      t.name ∈ (loadTier s t).loadedTiers ∧
      ∀ v ∈ (loadTier s t).loadingQueue, v.name ≠ t.name) ∧
    (t.loadResolves = false → loadTier s t = s) ∧
    (u.name ∈ s.loadedTiers → addTier s u = (s, [])) := by
  have hload : (t.loadResolves = true →
      t.name ∈ (loadTier s t).loadedTiers ∧
      ∀ v ∈ (loadTier s t).loadingQueue, v.name ≠ t.name) ∧
      (t.loadResolves = false → loadTier s t = s) ∧
      (u.name ∈ s.loadedTiers → addTier s u = (s, [])) := by
    refine ⟨?_, ?_, ?_⟩
    · intro hres
      constructor
      · simp [loadTier, hres, setAdd]
        by_cases hmem : t.name ∈ s.loadedTiers <;> simp [hmem]
      · intro v hv
        simp only [loadTier, hres, if_true, List.mem_filter, decide_eq_true_eq] at hv
        exact hv.2
    · intro hres
      simp [loadTier, hres]
    · intro hmem
      simp [addTier, hmem]
  by_cases hq : s.loadingQueue.isEmpty
  · have hpq : processQueue s = (s, []) := by
      simp [processQueue, hs, hq]
    have hqnil : s.loadingQueue = [] := List.isEmpty_iff.mp hq
    refine ⟨?_, ?_, ?_, hload.1, hload.2.1, hload.2.2⟩ <;>
      simp [hpq, hqnil]
  · have hacts : (processQueue s).2 =
        ((s.loadingQueue.mergeSort tierLe).filter
          (fun v => v.priority = TierPriority.critical)).map SchedAction.awaitNow ++
        ((s.loadingQueue.mergeSort tierLe).filter
          (fun v => v.priority ≠ TierPriority.critical)).map scheduleOf := by
      simp [processQueue, hs, hq]
    have hsorted : (s.loadingQueue.mergeSort tierLe).Pairwise (fun a b => tierLe a b = true) :=
      List.sorted_mergeSort tierLe_trans tierLe_total s.loadingQueue
    have hcritPairwise :
        (((s.loadingQueue.mergeSort tierLe).filter
          (fun v => v.priority = TierPriority.critical))).Pairwise
            (fun a b => tierLe a b = true) :=
      hsorted.sublist (List.filter_sublist _)
    have hremPairwise :
        (((s.loadingQueue.mergeSort tierLe).filter
          (fun v => v.priority ≠ TierPriority.critical))).Pairwise
            (fun a b => tierLe a b = true) :=
      hsorted.sublist (List.filter_sublist _)
    refine ⟨?_, ?_, ?_, hload.1, hload.2.1, hload.2.2⟩
    · rw [hacts]
      rw [List.pairwise_append]
      refine ⟨?_, ?_, ?_⟩
      · rw [List.pairwise_map]
        refine hcritPairwise.imp ?_
        intro a b hab
        simpa [tierLe, SchedAction.tier] using hab
      · rw [List.pairwise_map]
        refine hremPairwise.imp ?_
        intro a b hab
        simp only [tierLe, decide_eq_true_eq] at hab
        simpa [scheduleOf_tier] using hab
      · intro a ha b hb
        rcases List.mem_map.mp ha with ⟨x, hx, rfl⟩
        rcases List.mem_map.mp hb with ⟨y, hy, rfl⟩
        have hxc : x.priority = TierPriority.critical :=
          by simpa using (List.mem_filter.mp hx).2
        simp [SchedAction.tier, scheduleOf_tier, hxc, priorityOrder]
    · rw [hacts]
      intro a ha
      rcases List.mem_append.mp ha with h | h
      · rcases List.mem_map.mp h with ⟨x, hx, rfl⟩
        have hxc : x.priority = TierPriority.critical :=
          by simpa using (List.mem_filter.mp hx).2
        refine ⟨fun _ => rfl, ?_, ?_, ?_⟩ <;>
          · intro hcon
            rw [show (SchedAction.awaitNow x).tier = x from rfl] at hcon
            rw [hxc] at hcon
            cases hcon
      · rcases List.mem_map.mp h with ⟨x, hx, rfl⟩
        have hxc : x.priority ≠ TierPriority.critical :=
          by simpa using (List.mem_filter.mp hx).2
        rcases hp : x.priority with - | - | - | -
        · exact absurd hp hxc
        · refine ⟨?_, ?_, ?_, ?_⟩ <;> intro hcon <;>
            simp [scheduleOf, hp, SchedAction.tier, scheduleOf_tier] at hcon ⊢
        · refine ⟨?_, ?_, ?_, ?_⟩ <;> intro hcon <;>
            simp [scheduleOf, hp, SchedAction.tier, scheduleOf_tier] at hcon ⊢
        · refine ⟨?_, ?_, ?_, ?_⟩ <;> intro hcon <;>
            simp [scheduleOf, hp, SchedAction.tier, scheduleOf_tier] at hcon ⊢
    · rw [hacts]
      rw [List.map_append, List.map_map, List.map_map]
      have h1 : SchedAction.tier ∘ SchedAction.awaitNow = id := by
        funext x
        rfl
      have h2 :
          ((s.loadingQueue.mergeSort tierLe).filter
            (fun v => v.priority ≠ TierPriority.critical)).map (SchedAction.tier ∘ scheduleOf)
          = ((s.loadingQueue.mergeSort tierLe).filter
            (fun v => v.priority ≠ TierPriority.critical)).map id := by
        apply List.map_congr_left
        intro x _
        simp [scheduleOf_tier]
      rw [h1, h2, List.map_id, List.map_id]
      have hfilters :
          (fun v : LoadingTier => decide (v.priority ≠ TierPriority.critical))
            = (fun v : LoadingTier => !(decide (v.priority = TierPriority.critical))) := by
        funext v
        simp [decide_not]
      have hperm1 :
          (((s.loadingQueue.mergeSort tierLe).filter
              (fun v => v.priority = TierPriority.critical)) ++
            ((s.loadingQueue.mergeSort tierLe).filter
              (fun v => v.priority ≠ TierPriority.critical))).Perm
            (s.loadingQueue.mergeSort tierLe) := by
        rw [hfilters]
        exact List.filter_append_perm _ _
      exact hperm1.trans (List.mergeSort_perm _ _)

/-- Witness for C8 at the concrete queue: every queued tier is handled,
the queue processes in priority order, and the resolving critical tier is
recorded as loaded and dequeued. -/
theorem processQueue_priority_scheduling_witness :
    ((processQueue loaderSample).2.map SchedAction.tier).Perm loaderSample.loadingQueue ∧
    (processQueue loaderSample).2.Pairwise
      (fun a b => priorityOrder a.tier.priority ≤ priorityOrder b.tier.priority) ∧
    tierVideoBackground.name ∈ (loadTier loaderSample tierVideoBackground).loadedTiers := by
  have h := processQueue_priority_scheduling loaderSample tierVideoBackground
    tierVideoBackground rfl
  exact ⟨h.2.2.1, h.1, (h.2.2.2.1 rfl).1⟩

/-- Counterexample to C9 as stated: the `video-background` tier installed
by `initProgressiveLoader` writes the session key `videoReady` — state the
spec assigns to the video background manager — and whether it writes
depends on the manager's readiness state, not merely on having invoked its
initializer. -/
theorem progressiveLoader_touches_manager_state :
    (videoBackgroundTierTimer mwReady).storageVideoReadyKey = some "true" ∧
    mwReady.storageVideoReadyKey = none ∧
    videoBackgroundTierTimer mwReady ≠ mwReady ∧
    (videoBackgroundTierTimer mwNotReady).storageVideoReadyKey = none := by
  decide

/-- C9 (amended): the `ProgressiveLoader` queue processing itself touches
only the loader's own fields — its result and schedule depend only on the
loader component, and the manager component is untouched — while the
`video-background` tier registered by `initProgressiveLoader` reads the
manager's public `isReady()` and writes only the session key `videoReady`
(never `videoTime`), doing so exactly when the manager is ready and
storage is available. -/
theorem progressiveLoader_isolation (w w' : SiteWorld) (m : ManagerWorld)
    (hl : w.loader = w'.loader) :
    (siteProcessQueue w).1.manager = w.manager ∧
    (siteProcessQueue w).1.loader = (siteProcessQueue w').1.loader ∧
    (siteProcessQueue w).2 = (siteProcessQueue w').2 ∧
    (videoBackgroundTierTimer m).storageVideoTimeKey = m.storageVideoTimeKey ∧
    (videoBackgroundTierTimer m).managerIsReady = m.managerIsReady ∧
    (m.managerIsReady = true → m.storageAvailable = true →
      (videoBackgroundTierTimer m).storageVideoReadyKey = some "true") ∧
    (m.managerIsReady = false → videoBackgroundTierTimer m = m) := by
  obtain ⟨mr, rk, tk, sa⟩ := m
  refine ⟨?_, ?_, ?_, ?_, ?_, ?_, ?_⟩
  · simp [siteProcessQueue]
  · simp [siteProcessQueue, hl]
  · simp [siteProcessQueue, hl]
  · cases mr <;> cases sa <;> simp [videoBackgroundTierTimer]
  · cases mr <;> cases sa <;> simp [videoBackgroundTierTimer]
  · intro hmr hsa
    subst hmr
    subst hsa
    simp [videoBackgroundTierTimer]
  · intro hmr
    subst hmr
    simp [videoBackgroundTierTimer]

/-- Witness for C9 (amended) at concrete worlds. -/
theorem progressiveLoader_isolation_witness :
    (siteProcessQueue { loader := loaderSample, manager := mwReady }).1.manager = mwReady ∧
    (videoBackgroundTierTimer mwReady).storageVideoReadyKey = some "true" ∧
    videoBackgroundTierTimer mwNotReady = mwNotReady := by
  have h := progressiveLoader_isolation
    { loader := loaderSample, manager := mwReady }
    { loader := loaderSample, manager := mwNotReady }
    mwReady rfl
  have h2 := progressiveLoader_isolation
    { loader := loaderSample, manager := mwReady }
    { loader := loaderSample, manager := mwNotReady }
    mwNotReady rfl
  exact ⟨h.1, h.2.2.2.2.2.1 rfl rfl, h2.2.2.2.2.2.2 rfl⟩

/-- C10: while a cache entry for a `src` exists, `preloadImage` starts no
second `Image` fetch — a loaded entry resolves from the cache unchanged, a
loading entry only gains waiting listeners — exactly one fetch starts from
an empty cache, neither `preloadImage` nor a load event removes the entry
(only an error does), and preloading the same `src` twice equals
preloading it once up to the number of waiting listeners. -/
theorem preloadImage_single_fetch (c : PreloadCacheState) (e : PreloadEntry) :
    (c.entry = some e → (e.loaded = true ∨ e.loading = true) →
      (preloadImage c).imagesCreated = c.imagesCreated) ∧
    (c.entry = some e → e.loaded = true → preloadImage c = c) ∧
    (c.entry = some e → e.loaded = false → e.loading = true →
      preloadImage c
        = { c with entry := some { e with extraListeners := e.extraListeners + 1 } }) ∧
    (c.entry = none →
      (preloadImage c).imagesCreated = c.imagesCreated + 1 ∧
      (preloadImage c).entry = some { loaded := false, loading := true, extraListeners := 0 }) ∧
    (c.entry ≠ none → (preloadImage c).entry ≠ none ∧ (fireImageLoad c).entry ≠ none) ∧
    (c.entry = some e → e.loading = true → (fireImageError c).entry = none) ∧
    preloadCore (preloadImage (preloadImage c)) = preloadCore (preloadImage c) := by
  refine ⟨?_, ?_, ?_, ?_, ?_, ?_, ?_⟩
  · rintro hc (hl | hl) <;>
      cases hld : e.loaded <;> cases hlg : e.loading <;>
      simp_all [preloadImage]
  · intro hc hl
    simp [preloadImage, hc, hl]
  · intro hc hld hlg
    simp [preloadImage, hc, hld, hlg]
  · intro hc
    simp [preloadImage, hc]
  · intro hc
    rcases hce : c.entry with - | e2
    · exact absurd hce hc
    · cases hld : e2.loaded <;> cases hlg : e2.loading <;>
        simp [preloadImage, fireImageLoad, hce, hld, hlg]
  · intro hc hlg
    simp [fireImageError, hc, hlg]
  · rcases hce : c.entry with - | e2
    · simp [preloadImage, hce, preloadCore]
    · cases hld : e2.loaded <;> cases hlg : e2.loading <;>
        simp [preloadImage, hce, hld, hlg, preloadCore]

/-- Witness for C10 at a concrete empty cache: the first call starts
exactly one fetch, the second call starts none, and two calls have the
same core effect as one. -/
theorem preloadImage_single_fetch_witness :
    (preloadImage { entry := none, imagesCreated := 0 }).imagesCreated = 1 ∧
    (preloadImage (preloadImage { entry := none, imagesCreated := 0 })).imagesCreated = 1 ∧
    preloadCore (preloadImage (preloadImage { entry := none, imagesCreated := 0 }))
      = preloadCore (preloadImage { entry := none, imagesCreated := 0 }) := by
  have h := preloadImage_single_fetch { entry := none, imagesCreated := 0 }
    { loaded := false, loading := true, extraListeners := 0 }
  have h1 : (preloadImage { entry := none, imagesCreated := 0 }).imagesCreated = 1 :=
    (h.2.2.2.1 rfl).1
  have h2 := preloadImage_single_fetch (preloadImage { entry := none, imagesCreated := 0 })
    { loaded := false, loading := true, extraListeners := 0 }
  have h3 : (preloadImage (preloadImage { entry := none, imagesCreated := 0 })).imagesCreated
      = 1 := by
    rw [h2.1 (h.2.2.2.1 rfl).2 (Or.inr rfl)]
    exact h1
  exact ⟨h1, h3, h.2.2.2.2.2.2⟩
